import Mathlib

/-!
Shallow embedding of the battle engine in `src/game.rs` (Anchor/Solana program
`my_program`).  Machine integers are modelled as `Nat` (u8/u16/u32/u64) and
`Int` (i64); Rust `saturating_sub` on unsigned integers coincides with
truncated `Nat` subtraction, and `saturating_add` is modelled explicitly.
Account mutation under Anchor is transactional: a failed instruction leaves
every account unchanged, so fallible instructions are embedded as
`Except GameError Battle` — an `.error` result carries no state change.
The SHA-256 hash used by the commit-reveal protocol is kept abstract as an
explicit function argument `hashFn : List Nat → Nat`.
-/

namespace Fluidity

/-- `u64::MAX`, used for saturating addition. -/
def U64_MAX : Nat := 2 ^ 64 - 1

/-- Rust `u64::saturating_add`. -/
def satAdd64 (a b : Nat) : Nat := min (a + b) U64_MAX

/-- Character classes (`CharacterClass` in game.rs). -/
inductive CharacterClass where
  | Warrior
  | Assassin
  | Mage
  | Tank
  | Trickster
  deriving DecidableEq, Repr

/-- Match categories (`MatchType` in game.rs). -/
inductive MatchType where
  | Casual
  | Ranked
  | Tournament
  | Staked
  deriving DecidableEq, Repr

/-- Battle stances (`BattleStance` in game.rs). -/
inductive BattleStance where
  | Aggressive
  | Defensive
  | Balanced
  | Berserker
  | Counter
  deriving DecidableEq, Repr

/-- Wildcard event types (`WildcardEvent` in game.rs). -/
inductive WildcardEvent where
  | DoubleOrNothing
  | ReverseRoles
  | MysteryBox
  | DeathRoulette
  | ComboBreaker
  | TimeWarp
  | LuckySeven
  | GamblersFallacy
  deriving DecidableEq, Repr

/-- Rank tiers (`RankTier` in game.rs). -/
inductive RankTier where
  | Bronze
  | Silver
  | Gold
  | Platinum
  | Diamond
  | Master
  deriving DecidableEq, Repr

/-- Achievements (`Achievement` in game.rs). -/
inductive Achievement where
  | FirstWin
  | TenWins
  | HundredWins
  | Flawless
  | ComboMaster
  | TournamentWinner
  deriving DecidableEq, Repr

/-- Error codes of the program (`GameError` in game.rs; only the variants
reachable from the embedded instructions are listed). -/
inductive GameError where
  | BattleAlreadyFinished
  | NotYourTurn
  | BattleNotFinished
  | NoWinner
  | AlreadyCommitted
  | InvalidStanceReveal
  | SpecialOnCooldown
  | BattleExpired
  | NoActiveWildcard
  | DecisionTimeout
  | DecisionNotExpired
  deriving DecidableEq, Repr

/-- The `Character` account (game.rs).  Pubkeys are modelled as `Nat`. -/
structure Character where
  key : Nat
  owner : Nat
  character_class : CharacterClass
  name : String
  level : Nat
  xp : Nat
  max_hp : Nat
  current_hp : Nat
  base_damage_min : Nat
  base_damage_max : Nat
  crit_chance : Nat
  dodge_chance : Nat
  defense : Nat
  total_wins : Nat
  total_losses : Nat
  max_combo : Nat
  mmr : Nat
  special_cooldown : Nat
  rank_tier : RankTier
  season_wins : Nat
  season_losses : Nat
  achievements : List Achievement
  deriving DecidableEq, Repr

/-- The `Battle` account (game.rs).  The stored 32-byte stance hashes are
modelled as `Nat`, with `0` standing for the cleared `[0u8; 32]`. -/
structure Battle where
  player1 : Nat
  player2 : Nat
  match_type : MatchType
  stake_amount : Nat
  created_at : Int
  turn_number : Nat
  current_turn : Nat
  is_finished : Bool
  winner : Option Nat
  is_vs_ai : Bool
  abandoned : Bool
  last_action_time : Int
  player1_hp : Nat
  player2_hp : Nat
  player1_combo : Nat
  player2_combo : Nat
  player1_stance : BattleStance
  player2_stance : BattleStance
  player1_stance_committed : Bool
  player2_stance_committed : Bool
  player1_stance_hash : Nat
  player2_stance_hash : Nat
  player1_dot_damage : Nat
  player2_dot_damage : Nat
  player1_dot_turns : Nat
  player2_dot_turns : Nat
  player1_reflection : Nat
  player2_reflection : Nat
  player1_miss_count : Nat
  player2_miss_count : Nat
  player1_special_cooldown : Nat
  player2_special_cooldown : Nat
  last_damage_roll : Nat
  wildcard_active : Bool
  wildcard_type : Option WildcardEvent
  wildcard_decision_deadline : Int
  wildcard_player1_decision : Option Bool
  wildcard_player2_decision : Option Bool
  battle_log : List String
  deriving DecidableEq, Repr

/-- Rust cast `i64 as u64` (two's-complement reinterpretation). -/
def i64ToU64 (t : Int) : Nat := (t % (2 ^ 64 : Int)).toNat

/-- `simple_random` (game.rs): xor-combine timestamp and seeds, then fold the
upper bytes down and truncate to one byte (`as u8`). -/
def simple_random (timestamp : Int) (seed1 seed2 : Nat) : Nat :=
  let combined := i64ToU64 timestamp ^^^ seed1 ^^^ seed2
  ((combined >>> 8) ^^^ (combined >>> 16) ^^^ (combined >>> 24)) % 256

/-- `BattleStance::to_bytes` (game.rs). -/
def BattleStance.to_bytes : BattleStance → List Nat
  | .Aggressive => [0]
  | .Defensive => [1]
  | .Balanced => [2]
  | .Berserker => [3]
  | .Counter => [4]

/-- Rust `u64::to_le_bytes`, as a list of byte values. -/
def u64LeBytes (x : Nat) : List Nat :=
  [x % 256, x / 256 % 256, x / 256 ^ 2 % 256, x / 256 ^ 3 % 256,
   x / 256 ^ 4 % 256, x / 256 ^ 5 % 256, x / 256 ^ 6 % 256, x / 256 ^ 7 % 256]

/-- `TURN_TIMEOUT_SECONDS` (game.rs). -/
def TURN_TIMEOUT_SECONDS : Int := 30

/-- `BATTLE_EXPIRY_SECONDS` (game.rs). -/
def BATTLE_EXPIRY_SECONDS : Int := 3600

/-- `WILDCARD_DECISION_TIMEOUT` (game.rs). -/
def WILDCARD_DECISION_TIMEOUT : Int := 10

/-- `check_battle_timeout` (game.rs): fails with `BattleExpired` once the
battle age reaches the expiry window. -/
def check_battle_timeout (b : Battle) (now : Int) : Except GameError Unit :=
  if now - b.created_at < BATTLE_EXPIRY_SECONDS then .ok () else .error .BattleExpired

/-- `requires_decision` (game.rs). -/
def requires_decision : WildcardEvent → Bool
  | .DoubleOrNothing => true
  | .DeathRoulette => true
  | _ => false

/-- `log_battle_event` (game.rs): push onto the battle log while it holds
fewer than 50 entries. -/
def log_battle_event (b : Battle) (event : String) : Battle :=
  if b.battle_log.length < 50 then { b with battle_log := b.battle_log ++ [event] } else b

/-- `get_required_xp` (game.rs): fixed curve for levels below 11, linear after. -/
def get_required_xp (level : Nat) : Nat :=
  let xp_curve : List Nat := [0, 100, 250, 450, 700, 1000, 1400, 1900, 2500, 3200, 4000]
  if level < 11 then xp_curve.getD level 0 else 4000 + (level - 10) * 500

/-- `update_rank_tier` (game.rs). -/
def update_rank_tier (c : Character) : Character :=
  { c with rank_tier :=
      if c.mmr ≤ 999 then .Bronze
      else if c.mmr ≤ 1499 then .Silver
      else if c.mmr ≤ 1999 then .Gold
      else if c.mmr ≤ 2499 then .Platinum
      else if c.mmr ≤ 2999 then .Diamond
      else .Master }

/-- `check_achievements` (game.rs). -/
def check_achievements (c : Character) : Character :=
  let c := if c.total_wins = 1 ∧ ¬ c.achievements.contains .FirstWin then
      { c with achievements := c.achievements ++ [.FirstWin] } else c
  let c := if c.total_wins = 10 ∧ ¬ c.achievements.contains .TenWins then
      { c with achievements := c.achievements ++ [.TenWins] } else c
  let c := if c.total_wins = 100 ∧ ¬ c.achievements.contains .HundredWins then
      { c with achievements := c.achievements ++ [.HundredWins] } else c
  if c.current_hp = c.max_hp ∧ ¬ c.achievements.contains .Flawless then
    { c with achievements := c.achievements ++ [.Flawless] } else c

/-- `update_winner_stats` (game.rs): add XP, bump win counters, heal to full,
evaluate achievements, apply at most one level-up, then gain MMR and
recompute the rank tier. -/
def update_winner_stats (c : Character) (xp level_diff : Nat) : Character :=
  let c := { c with xp := c.xp + xp, total_wins := c.total_wins + 1,
                    season_wins := c.season_wins + 1 }
  let c := { c with current_hp := c.max_hp }
  let c := check_achievements c
  let required_xp := get_required_xp c.level
  let c :=
    if c.xp ≥ required_xp ∧ c.level < 50 then
      let c := { c with level := c.level + 1, xp := c.xp - required_xp,
                        max_hp := c.max_hp + 5 }
      { c with current_hp := c.max_hp,
               base_damage_min := c.base_damage_min + 2,
               base_damage_max := c.base_damage_max + 2,
               crit_chance := c.crit_chance + 1,
               defense := c.defense + 1 }
    else c
  let mmr_gain := 25 + level_diff * 5
  let c := { c with mmr := c.mmr + mmr_gain }
  update_rank_tier c

/-- `update_loser_stats` (game.rs): bump loss counters, heal to full, lose MMR
(saturating at 0), recompute the rank tier. -/
def update_loser_stats (c : Character) (level_diff : Nat) : Character :=
  let c := { c with total_losses := c.total_losses + 1,
                    season_losses := c.season_losses + 1 }
  let c := { c with current_hp := c.max_hp }
  let mmr_loss := 15 + level_diff * 3
  let c := { c with mmr := c.mmr - mmr_loss }
  update_rank_tier c

/-- The crit chance used by `calculate_damage` (game.rs): the attacker's base
crit chance, raised by 5 per recorded miss of the acting side whenever the
battle's `wildcard_type` field holds `GamblersFallacy` — the boost is gated on
the stored wildcard type only, not on `wildcard_active`. -/
def effective_crit_chance (attacker : Character) (b : Battle) (is_player1 : Bool) : Nat :=
  if b.wildcard_type = some .GamblersFallacy then
    attacker.crit_chance + (if is_player1 then b.player1_miss_count else b.player2_miss_count) * 5
  else attacker.crit_chance

/-- The "Special moves" block of `calculate_damage` (game.rs): class-specific
damage multiplier plus side effects on the battle record (Mage arms a DOT,
Tank arms 50% reflection, Trickster rolls one of four effects). -/
def apply_special_move (damage : Nat) (attacker : Character) (b : Battle)
    (is_player1 : Bool) (timestamp : Int) : Nat × Battle :=
  match attacker.character_class with
  | .Warrior => (damage * 2, b)
  | .Assassin => (damage * 3, b)
  | .Mage =>
      if is_player1 then
        (damage * 2, { b with player2_dot_damage := 15, player2_dot_turns := 3 })
      else
        (damage * 2, { b with player1_dot_damage := 15, player1_dot_turns := 3 })
  | .Tank =>
      if is_player1 then (damage, { b with player1_reflection := 50 })
      else (damage, { b with player2_reflection := 50 })
  | .Trickster =>
      let effect_roll := simple_random timestamp b.turn_number 11 % 4
      if effect_roll = 0 then
        if is_player1 then
          (damage * 2, { b with player1_combo := b.player1_combo + b.player2_combo,
                                player2_combo := 0 })
        else
          (damage * 2, { b with player2_combo := b.player2_combo + b.player1_combo,
                                player1_combo := 0 })
      else if effect_roll = 1 then
        (damage * 2, { b with player1_stance := b.player2_stance,
                              player2_stance := b.player1_stance })
      else if effect_roll = 2 then
        (damage * 3, b)
      else
        (damage * 2, { b with wildcard_active := true })

/-- `calculate_damage` (game.rs).  The Rust signature takes `battle: &Battle`
but the body assigns battle fields (DOT arming, reflection, combo steal,
stance swap, extra wildcard) and the call site passes `&mut`; the evident
semantics is mutation, so the embedding returns the damage together with the
updated battle. -/
def calculate_damage (attacker defender : Character) (b : Battle)
    (is_player1 use_special : Bool) (timestamp : Int) : Nat × Battle :=
  let damage_range := attacker.base_damage_max - attacker.base_damage_min
  let roll := simple_random timestamp b.turn_number 3
  let base_damage := attacker.base_damage_min + roll % (damage_range + 1)
  let level_bonus := (attacker.level - 1) * 2
  let damage := base_damage + level_bonus
  let crit_roll := simple_random timestamp b.turn_number 4 % 100
  let crit_chance := effective_crit_chance attacker b is_player1
  let is_crit := crit_roll < crit_chance
  let damage :=
    if is_crit then
      let damage :=
        match attacker.character_class with
        | .Warrior => damage * 2
        | .Assassin => damage * 3
        | .Mage => damage * 2
        | .Tank => damage * 2
        | .Trickster => damage * 2 + 20
      let defender_hp := if is_player1 then b.player2_hp else b.player1_hp
      if defender_hp < defender.max_hp * 20 / 100 then
        if simple_random timestamp b.turn_number 5 % 100 < 5 then defender_hp else damage
      else damage
    else damage
  let combo := if is_player1 then b.player1_combo else b.player2_combo
  let damage := if combo > 0 then damage + damage * 15 * combo / 100 else damage
  let dmgb :=
    if use_special then apply_special_move damage attacker b is_player1 timestamp
    else (damage, b)
  let damage := dmgb.1
  let b := dmgb.2
  let damage := damage - defender.defense
  let dodge_roll := simple_random timestamp b.turn_number 6 % 100
  let damage := if dodge_roll < defender.dodge_chance then 0 else damage
  (damage, b)

/-- `apply_stance_modifiers` (game.rs): attacker-stance factor first (Berserker
also self-damages the attacker), then defender-stance factor. -/
def apply_stance_modifiers (damage : Nat) (attacker_stance defender_stance : BattleStance)
    (is_player1 : Bool) (b : Battle) : Nat × Battle :=
  let dmgb :=
    match attacker_stance with
    | .Aggressive => (damage * 130 / 100, b)
    | .Defensive => (damage * 70 / 100, b)
    | .Berserker =>
        let damage := damage * 2
        let self_damage := damage * 25 / 100
        if is_player1 then (damage, { b with player1_hp := b.player1_hp - self_damage })
        else (damage, { b with player2_hp := b.player2_hp - self_damage })
    | .Counter =>
        if defender_stance = BattleStance.Aggressive then (damage * 150 / 100, b) else (0, b)
    | .Balanced => (damage, b)
  let damage := dmgb.1
  let b := dmgb.2
  let damage :=
    match defender_stance with
    | .Defensive => damage * 50 / 100
    | .Aggressive => damage * 150 / 100
    | _ => damage
  (damage, b)

/-- `apply_wildcard_effects` (game.rs): immediate wildcard modifiers applied
inside turn execution. -/
def apply_wildcard_effects (damage : Nat) (b : Battle) (is_player1 : Bool)
    (timestamp : Int) : Nat × Battle :=
  match b.wildcard_type with
  | none => (damage, b)
  | some wildcard =>
    match wildcard with
    | .ReverseRoles =>
        let p1_percent := b.player1_hp * 100 / max b.player1_hp 1
        let p2_percent := b.player2_hp * 100 / max b.player2_hp 1
        let temp := b.player1_hp
        (damage, { b with player1_hp := b.player1_hp * p2_percent / 100,
                          player2_hp := temp * p1_percent / 100 })
    | .MysteryBox =>
        let buff_roll := simple_random timestamp b.turn_number 8 % 4
        if buff_roll = 0 then (damage * 3, b)
        else if buff_roll = 1 then
          if is_player1 then (damage, { b with player1_reflection := 50 })
          else (damage, { b with player2_reflection := 50 })
        else if buff_roll = 2 then
          if is_player1 then (damage, { b with player1_hp := b.player1_hp + 50 })
          else (damage, { b with player2_hp := b.player2_hp + 50 })
        else
          if is_player1 then (damage, { b with player1_combo := b.player1_combo + 3 })
          else (damage, { b with player2_combo := b.player2_combo + 3 })
    | .ComboBreaker =>
        if is_player1 then
          (damage, { b with player1_combo := b.player1_combo + b.player2_combo,
                            player2_combo := 0 })
        else
          (damage, { b with player2_combo := b.player2_combo + b.player1_combo,
                            player1_combo := 0 })
    | .TimeWarp =>
        if is_player1 then (0, { b with player2_hp := b.player2_hp + min damage 50 })
        else (0, { b with player1_hp := b.player1_hp + min damage 50 })
    | .LuckySeven =>
        if b.last_damage_roll = 7 then (damage * 7, b) else (damage, b)
    | _ => (damage, b)

/-- The battle-end check at the end of `execute_battle_turn` (game.rs): if
either side's battle-local health is zero, mark the battle finished and set
the winner to player 1 exactly when player 1's health is positive. -/
def check_battle_end (b : Battle) : Battle :=
  if b.player1_hp == 0 || b.player2_hp == 0 then
    log_battle_event
      { b with is_finished := true,
               winner := if b.player1_hp > 0 then some 1 else some 2 }
      "Battle finished!"
  else b

/-- The turn advance at the end of `execute_battle_turn` (game.rs): flip the
current-turn indicator, bump the turn counter, clear the wildcard-active flag. -/
def advance_turn (b : Battle) : Battle :=
  { b with current_turn := if b.current_turn = 1 then 2 else 1,
           turn_number := b.turn_number + 1,
           wildcard_active := false }

/-- `execute_battle_turn` (game.rs): damage pipeline, stance layer, wildcard
layer, damage application with attacker self-reflection, cooldown update,
termination check, turn advance. -/
def execute_battle_turn (b : Battle) (attacker defender : Character)
    (is_player1 use_special : Bool) (now : Int) : Battle :=
  let r0 := calculate_damage attacker defender b is_player1 use_special now
  let damage := r0.1
  let b := r0.2
  let stances :=
    if is_player1 then (b.player1_stance, b.player2_stance)
    else (b.player2_stance, b.player1_stance)
  let r1 := apply_stance_modifiers damage stances.1 stances.2 is_player1 b
  let damage := r1.1
  let b := r1.2
  let r2 :=
    if b.wildcard_active ∧ b.wildcard_type.isSome then
      apply_wildcard_effects damage b is_player1 now
    else (damage, b)
  let damage := r2.1
  let b := r2.2
  let b :=
    if is_player1 then
      let b := { b with player2_hp := b.player2_hp - damage }
      if b.player1_reflection > 0 then
        let reflected := damage * b.player1_reflection / 100
        log_battle_event { b with player1_hp := b.player1_hp - reflected }
          ("Player 1 takes " ++ toString reflected ++ " reflected damage")
      else b
    else
      let b := { b with player1_hp := b.player1_hp - damage }
      if b.player2_reflection > 0 then
        let reflected := damage * b.player2_reflection / 100
        log_battle_event { b with player2_hp := b.player2_hp - reflected }
          ("Player 2 takes " ++ toString reflected ++ " reflected damage")
      else b
  let b := log_battle_event b ("Damage dealt: " ++ toString damage)
  let b :=
    if use_special then
      if is_player1 then { b with player1_special_cooldown := 3 }
      else { b with player2_special_cooldown := 3 }
    else b
  let b :=
    if is_player1 then { b with player1_special_cooldown := b.player1_special_cooldown - 1 }
    else { b with player2_special_cooldown := b.player2_special_cooldown - 1 }
  advance_turn (check_battle_end b)

/-- `commit_stance` (game.rs): store the stance commitment hash for the side
holding the turn. -/
def commit_stance (b : Battle) (character : Character) (stance_hash : Nat)
    (now : Int) : Except GameError Battle :=
  if b.is_finished then .error .BattleAlreadyFinished
  else if ¬ (now - b.created_at < BATTLE_EXPIRY_SECONDS) then .error .BattleExpired
  else
    let is_player1 := b.player1 = character.key
    if ¬ ((is_player1 ∧ b.current_turn = 1) ∨ (¬ is_player1 ∧ b.current_turn = 2)) then
      .error .NotYourTurn
    else if is_player1 then
      if b.player1_stance_committed then .error .AlreadyCommitted
      else .ok { b with player1_stance_hash := stance_hash,
                        player1_stance_committed := true,
                        last_action_time := now }
    else
      if b.player2_stance_committed then .error .AlreadyCommitted
      else .ok { b with player2_stance_hash := stance_hash,
                        player2_stance_committed := true,
                        last_action_time := now }

/-- Wildcard trigger chance in `reveal_and_execute_turn` (game.rs): base 10,
raised to 25 for a Trickster attacker. -/
def wildcard_chance (attacker : Character) : Nat :=
  if attacker.character_class = .Trickster then 25 else 10

/-- Wildcard type selection in `reveal_and_execute_turn` (game.rs): second
random byte modulo 8. -/
def pick_wildcard (now : Int) (turn_number : Nat) : WildcardEvent :=
  match simple_random now turn_number 2 % 8 with
  | 0 => .DoubleOrNothing
  | 1 => .ReverseRoles
  | 2 => .MysteryBox
  | 3 => .DeathRoulette
  | 4 => .ComboBreaker
  | 5 => .TimeWarp
  | 6 => .LuckySeven
  | _ => .GamblersFallacy

/-- `reveal_and_execute_turn` (game.rs): verify the stance commitment, apply
the acting side's DOT tick, roll for a wildcard (suspending on
decision-required events), then execute the turn and reset commitments. -/
def reveal_and_execute_turn (hashFn : List Nat → Nat) (b : Battle)
    (attacker defender : Character) (stance : BattleStance) (salt : Nat)
    (use_special : Bool) (now : Int) : Except GameError Battle :=
  if b.is_finished then .error .BattleAlreadyFinished
  else if ¬ (now - b.created_at < BATTLE_EXPIRY_SECONDS) then .error .BattleExpired
  else
    let is_player1 := b.player1 = attacker.key
    if ¬ ((is_player1 ∧ b.current_turn = 1) ∨ (¬ is_player1 ∧ b.current_turn = 2)) then
      .error .NotYourTurn
    else
      let computed_hash := hashFn (stance.to_bytes ++ u64LeBytes salt)
      if is_player1 ∧ b.player1_stance_hash ≠ computed_hash then .error .InvalidStanceReveal
      else if ¬ is_player1 ∧ b.player2_stance_hash ≠ computed_hash then
        .error .InvalidStanceReveal
      else if use_special ∧
          (if is_player1 then b.player1_special_cooldown else b.player2_special_cooldown) ≠ 0 then
        .error .SpecialOnCooldown
      else
        let b := if is_player1 then { b with player1_stance := stance }
                 else { b with player2_stance := stance }
        let b :=
          if is_player1 ∧ b.player1_dot_turns > 0 then
            log_battle_event
              { b with player1_hp := b.player1_hp - b.player1_dot_damage,
                       player1_dot_turns := b.player1_dot_turns - 1 }
              ("Player 1 takes " ++ toString b.player1_dot_damage ++ " DOT damage")
          else if ¬ is_player1 ∧ b.player2_dot_turns > 0 then
            log_battle_event
              { b with player2_hp := b.player2_hp - b.player2_dot_damage,
                       player2_dot_turns := b.player2_dot_turns - 1 }
              ("Player 2 takes " ++ toString b.player2_dot_damage ++ " DOT damage")
          else b
        let b :=
          if attacker.character_class = .Trickster then
            log_battle_event b "Trickster's wildcard manipulation active!"
          else b
        let wildcard_roll := simple_random now b.turn_number 1 % 100
        if wildcard_roll < wildcard_chance attacker ∧ b.wildcard_active = false then
          let wt := pick_wildcard now b.turn_number
          let b := { b with wildcard_type := some wt }
          if requires_decision wt then
            .ok (log_battle_event
                  { b with wildcard_active := true,
                           wildcard_decision_deadline := now + WILDCARD_DECISION_TIMEOUT }
                  "Wildcard event triggered - Decision required!")
          else
            let b := log_battle_event { b with wildcard_active := true }
                      "Wildcard event triggered"
            let b := execute_battle_turn b attacker defender is_player1 use_special now
            .ok { b with last_action_time := now,
                         player1_stance_committed := false,
                         player2_stance_committed := false,
                         player1_stance_hash := 0,
                         player2_stance_hash := 0 }
        else
          let b := execute_battle_turn b attacker defender is_player1 use_special now
          .ok { b with last_action_time := now,
                       player1_stance_committed := false,
                       player2_stance_committed := false,
                       player1_stance_hash := 0,
                       player2_stance_hash := 0 }

/-- `resolve_wildcard_with_decisions` (game.rs): apply the DoubleOrNothing /
DeathRoulette resolution matrix, then clear the active flag and both
decisions (the stored `wildcard_type` is left untouched). -/
def resolve_wildcard_with_decisions (b : Battle) (now : Int) : Battle :=
  let p1_accepts := b.wildcard_player1_decision.getD false
  let p2_accepts := b.wildcard_player2_decision.getD false
  let b :=
    match b.wildcard_type with
    | some .DoubleOrNothing =>
        if p1_accepts ∧ p2_accepts then
          let roll := simple_random now b.turn_number 7 % 2
          if roll = 0 then
            log_battle_event b "Double or Nothing: Both MISS next turn!"
          else
            log_battle_event
              { b with player1_combo := b.player1_combo + 2,
                       player2_combo := b.player2_combo + 2 }
              "Double or Nothing: Both get DOUBLE damage!"
        else if p1_accepts then
          let roll := simple_random now b.turn_number 7 % 2
          if roll = 0 then
            log_battle_event { b with player1_miss_count := b.player1_miss_count + 1 }
              "P1 Double or Nothing: MISS!"
          else
            log_battle_event { b with player1_combo := b.player1_combo + 3 }
              "P1 Double or Nothing: Triple damage!"
        else if p2_accepts then
          let roll := simple_random now b.turn_number 8 % 2
          if roll = 0 then
            log_battle_event { b with player2_miss_count := b.player2_miss_count + 1 }
              "P2 Double or Nothing: MISS!"
          else
            log_battle_event { b with player2_combo := b.player2_combo + 3 }
              "P2 Double or Nothing: Triple damage!"
        else b
    | some .DeathRoulette =>
        if p1_accepts ∧ p2_accepts then
          let roll := simple_random now b.turn_number 9 % 2
          if roll = 0 then
            log_battle_event
              { b with player1_hp := 1, player2_hp := satAdd64 b.player2_hp 100 }
              "Death Roulette: P1 nearly killed, P2 healed!"
          else
            log_battle_event
              { b with player2_hp := 1, player1_hp := satAdd64 b.player1_hp 100 }
              "Death Roulette: P2 nearly killed, P1 healed!"
        else if p1_accepts then
          let roll := simple_random now b.turn_number 9 % 2
          if roll = 0 then
            log_battle_event { b with player1_hp := 1 } "P1 Death Roulette: Nearly killed!"
          else
            log_battle_event { b with player1_hp := 999 } "P1 Death Roulette: Massive heal!"
        else if p2_accepts then
          let roll := simple_random now b.turn_number 10 % 2
          if roll = 0 then
            log_battle_event { b with player2_hp := 1 } "P2 Death Roulette: Nearly killed!"
          else
            log_battle_event { b with player2_hp := 999 } "P2 Death Roulette: Massive heal!"
        else b
    | _ => b
  { b with wildcard_active := false,
           wildcard_player1_decision := none,
           wildcard_player2_decision := none }

/-- `decide_wildcard` (game.rs): record the caller's accept/decline in the
slot selected by comparing the character key with `battle.player1`; resolve
once both decisions are present. -/
def decide_wildcard (b : Battle) (character : Character) (accept : Bool)
    (now : Int) : Except GameError Battle :=
  if ¬ b.wildcard_active then .error .NoActiveWildcard
  else if ¬ (now ≤ b.wildcard_decision_deadline) then .error .DecisionTimeout
  else
    let is_player1 := b.player1 = character.key
    let b := if is_player1 then { b with wildcard_player1_decision := some accept }
             else { b with wildcard_player2_decision := some accept }
    if b.wildcard_player1_decision.isSome ∧ b.wildcard_player2_decision.isSome then
      .ok (resolve_wildcard_with_decisions b now)
    else .ok b

/-- `resolve_wildcard_timeout` (game.rs): after the decision deadline, default
missing decisions to decline and resolve. -/
def resolve_wildcard_timeout (b : Battle) (now : Int) : Except GameError Battle :=
  if ¬ b.wildcard_active then .error .NoActiveWildcard
  else if ¬ (now > b.wildcard_decision_deadline) then .error .DecisionNotExpired
  else
    let b :=
      if b.wildcard_player1_decision.isNone then
        log_battle_event { b with wildcard_player1_decision := some false }
          "Player 1 auto-declined wildcard (timeout)"
      else b
    let b :=
      if b.wildcard_player2_decision.isNone then
        log_battle_event { b with wildcard_player2_decision := some false }
          "Player 2 auto-declined wildcard (timeout)"
      else b
    .ok (resolve_wildcard_with_decisions b now)

/-- `check_timeout` (game.rs): if the turn-holder has been inactive for more
than 30 seconds, mark the battle finished and abandoned with the other side
as winner (the lamport transfer to the winner is escrow-side and not part of
the battle record). -/
def check_timeout (b : Battle) (now : Int) : Except GameError Battle :=
  if b.is_finished then .error .BattleAlreadyFinished
  else
    let time_since_last_action := now - b.last_action_time
    if time_since_last_action > TURN_TIMEOUT_SECONDS then
      let b := { b with is_finished := true,
                        abandoned := true,
                        winner := some (if b.current_turn = 1 then 2 else 1) }
      .ok (log_battle_event b
            ("Player " ++ toString b.current_turn ++ " forfeited (timeout)"))
    else .ok b

/-- `finalize_battle` (game.rs): compute the XP award from the match category
and the level difference, then update the winner's and loser's character
records (stake transfer is escrow-side).  Returns the updated
(player1, player2) pair. -/
def finalize_battle (b : Battle) (player1_char player2_char : Character) :
    Except GameError (Character × Character) :=
  if ¬ b.is_finished then .error .BattleNotFinished
  else
    match b.winner with
    | none => .error .NoWinner
    | some w =>
      let winner_is_player1 := w = 1
      let level_diff := ((player1_char.level : Int) - (player2_char.level : Int)).natAbs
      let base_xp : Nat :=
        match b.match_type with
        | .Casual => 50
        | .Ranked => 100
        | .Tournament => 200
        | .Staked => 150
      let xp_bonus := if level_diff > 5 then 50 else level_diff * 10
      let total_xp := base_xp + xp_bonus
      if winner_is_player1 then
        .ok (update_winner_stats player1_char total_xp level_diff,
             update_loser_stats player2_char level_diff)
      else
        .ok (update_loser_stats player1_char level_diff,
             update_winner_stats player2_char total_xp level_diff)

/-- Extract the battle of a successful instruction result. -/
def okBattle : Except GameError Battle → Option Battle
  | .ok r => some r
  | .error _ => none

/-- A concrete level-1 Warrior character (stats as in `create_character` for
`CharacterClass::Warrior`, with a degenerate damage range 10–10 and crit and
dodge chances zeroed so concrete turns are deterministic regardless of rolls). -/
def mkChar (key : Nat) : Character :=
  { key := key, owner := key, character_class := .Warrior, name := "c", level := 1,
    xp := 0, max_hp := 120, current_hp := 120, base_damage_min := 10,
    base_damage_max := 10, crit_chance := 0, dodge_chance := 0, defense := 0,
    total_wins := 0, total_losses := 0, max_combo := 0, mmr := 1000,
    special_cooldown := 0, rank_tier := .Bronze, season_wins := 0,
    season_losses := 0, achievements := [] }

/-- A freshly created battle record (field values as set by `create_battle`). -/
def mkBattle : Battle :=
  { player1 := 1, player2 := 2, match_type := .Ranked, stake_amount := 0,
    created_at := 0, turn_number := 0, current_turn := 1, is_finished := false,
    winner := none, is_vs_ai := false, abandoned := false, last_action_time := 0,
    player1_hp := 120, player2_hp := 120, player1_combo := 0, player2_combo := 0,
    player1_stance := .Balanced, player2_stance := .Balanced,
    player1_stance_committed := false, player2_stance_committed := false,
    player1_stance_hash := 0, player2_stance_hash := 0,
    player1_dot_damage := 0, player2_dot_damage := 0,
    player1_dot_turns := 0, player2_dot_turns := 0,
    player1_reflection := 0, player2_reflection := 0,
    player1_miss_count := 0, player2_miss_count := 0,
    player1_special_cooldown := 0, player2_special_cooldown := 0,
    last_damage_roll := 0, wildcard_active := false, wildcard_type := none,
    wildcard_decision_deadline := 0, wildcard_player1_decision := none,
    wildcard_player2_decision := none, battle_log := [] }

/-- Battle in which player 1 (attacker, 50% reflection) is at 5 HP and
player 2 at 10 HP: one plain 10-damage hit zeroes both sides at once. -/
def bC2 : Battle := { mkBattle with player1_hp := 5, player2_hp := 10, player1_reflection := 50 }

/-- Battle in which player 1 is at 10 HP with a pending 3-damage DOT tick. -/
def bC3 : Battle := { mkBattle with player1_hp := 10, player1_dot_turns := 1, player1_dot_damage := 3 }

/-- Battle with health 10 vs 20 and a pending ReverseRoles wildcard. -/
def bC5 : Battle :=
  { mkBattle with player1_hp := 10, player2_hp := 20,
                  wildcard_active := true, wildcard_type := some .ReverseRoles }

/-- A terminal battle won by player 1. -/
def bC6 : Battle := { mkBattle with is_finished := true, winner := some 1 }

/-- Battle created 3601 seconds before time 0, last action 31 seconds before. -/
def bC7 : Battle := { mkBattle with created_at := -3601, last_action_time := -31 }

/-- Battle with an active DoubleOrNothing wildcard and decision deadline 100. -/
def bC8 : Battle :=
  { mkBattle with wildcard_active := true, wildcard_decision_deadline := 100,
                  wildcard_type := some .DoubleOrNothing }

/-- Battle whose stored wildcard type is GamblersFallacy (no longer active)
with two recorded misses for player 1. -/
def bGF : Battle :=
  { mkBattle with wildcard_type := some .GamblersFallacy, player1_miss_count := 2 }

/-! Helper lemmas: field-preservation ("frame") facts for the embedded
functions, shared by the claim theorems below. -/

theorem log_fields (b : Battle) (e : String) :
    (log_battle_event b e).player1_hp = b.player1_hp ∧
    (log_battle_event b e).player2_hp = b.player2_hp ∧
    (log_battle_event b e).is_finished = b.is_finished ∧
    (log_battle_event b e).winner = b.winner ∧
    (log_battle_event b e).turn_number = b.turn_number ∧
    (log_battle_event b e).current_turn = b.current_turn ∧
    (log_battle_event b e).wildcard_active = b.wildcard_active ∧
    (log_battle_event b e).wildcard_type = b.wildcard_type ∧
    (log_battle_event b e).player1_special_cooldown = b.player1_special_cooldown ∧
    (log_battle_event b e).player2_special_cooldown = b.player2_special_cooldown ∧
    (log_battle_event b e).abandoned = b.abandoned := by
  unfold log_battle_event
  split <;> simp

theorem apply_special_move_frame (damage : Nat) (a : Character) (b : Battle)
    (ip : Bool) (ts : Int) :
    (apply_special_move damage a b ip ts).2.player1_special_cooldown = b.player1_special_cooldown ∧
    (apply_special_move damage a b ip ts).2.player2_special_cooldown = b.player2_special_cooldown ∧
    (apply_special_move damage a b ip ts).2.wildcard_type = b.wildcard_type ∧
    (apply_special_move damage a b ip ts).2.player1_hp = b.player1_hp ∧
    (apply_special_move damage a b ip ts).2.player2_hp = b.player2_hp ∧
    (apply_special_move damage a b ip ts).2.is_finished = b.is_finished ∧
    (apply_special_move damage a b ip ts).2.winner = b.winner ∧
    (apply_special_move damage a b ip ts).2.turn_number = b.turn_number ∧
    (apply_special_move damage a b ip ts).2.current_turn = b.current_turn := by
  unfold apply_special_move
  split <;> cases ip <;>
    by_cases h0 : simple_random ts b.turn_number 11 % 4 = 0 <;>
    by_cases h1 : simple_random ts b.turn_number 11 % 4 = 1 <;>
    by_cases h2 : simple_random ts b.turn_number 11 % 4 = 2 <;>
    simp [h0, h1, h2]

theorem calculate_damage_frame (a d : Character) (b : Battle) (ip us : Bool) (ts : Int) :
    (calculate_damage a d b ip us ts).2.player1_special_cooldown = b.player1_special_cooldown ∧
    (calculate_damage a d b ip us ts).2.player2_special_cooldown = b.player2_special_cooldown ∧
    (calculate_damage a d b ip us ts).2.wildcard_type = b.wildcard_type ∧
    (calculate_damage a d b ip us ts).2.player1_hp = b.player1_hp ∧
    (calculate_damage a d b ip us ts).2.player2_hp = b.player2_hp ∧
    (calculate_damage a d b ip us ts).2.is_finished = b.is_finished ∧
    (calculate_damage a d b ip us ts).2.winner = b.winner ∧
    (calculate_damage a d b ip us ts).2.turn_number = b.turn_number ∧
    (calculate_damage a d b ip us ts).2.current_turn = b.current_turn := by
  unfold calculate_damage
  dsimp only
  by_cases h : us = true
  · simp only [h, if_true]
    exact apply_special_move_frame _ a b ip ts
  · simp only [h]
    simp

theorem apply_stance_modifiers_frame (damage : Nat) (as ds : BattleStance)
    (ip : Bool) (b : Battle) :
    (apply_stance_modifiers damage as ds ip b).2.player1_special_cooldown = b.player1_special_cooldown ∧
    (apply_stance_modifiers damage as ds ip b).2.player2_special_cooldown = b.player2_special_cooldown ∧
    (apply_stance_modifiers damage as ds ip b).2.wildcard_type = b.wildcard_type ∧
    (apply_stance_modifiers damage as ds ip b).2.is_finished = b.is_finished ∧
    (apply_stance_modifiers damage as ds ip b).2.winner = b.winner ∧
    (apply_stance_modifiers damage as ds ip b).2.turn_number = b.turn_number ∧
    (apply_stance_modifiers damage as ds ip b).2.current_turn = b.current_turn := by
  unfold apply_stance_modifiers
  dsimp only
  split <;> (try cases ip) <;> (try split) <;> simp

theorem apply_wildcard_effects_frame (damage : Nat) (b : Battle) (ip : Bool) (ts : Int) :
    (apply_wildcard_effects damage b ip ts).2.player1_special_cooldown = b.player1_special_cooldown ∧
    (apply_wildcard_effects damage b ip ts).2.player2_special_cooldown = b.player2_special_cooldown ∧
    (apply_wildcard_effects damage b ip ts).2.wildcard_type = b.wildcard_type ∧
    (apply_wildcard_effects damage b ip ts).2.is_finished = b.is_finished ∧
    (apply_wildcard_effects damage b ip ts).2.winner = b.winner ∧
    (apply_wildcard_effects damage b ip ts).2.turn_number = b.turn_number ∧
    (apply_wildcard_effects damage b ip ts).2.current_turn = b.current_turn := by
  unfold apply_wildcard_effects
  split
  · simp
  · split <;> (try cases ip) <;>
      by_cases h0 : simple_random ts b.turn_number 8 % 4 = 0 <;>
      by_cases h1 : simple_random ts b.turn_number 8 % 4 = 1 <;>
      by_cases h2 : simple_random ts b.turn_number 8 % 4 = 2 <;>
      (try split) <;> simp [h0, h1, h2]

theorem advance_turn_frame (b : Battle) :
    (advance_turn b).player1_hp = b.player1_hp ∧
    (advance_turn b).player2_hp = b.player2_hp ∧
    (advance_turn b).is_finished = b.is_finished ∧
    (advance_turn b).winner = b.winner ∧
    (advance_turn b).player1_special_cooldown = b.player1_special_cooldown ∧
    (advance_turn b).player2_special_cooldown = b.player2_special_cooldown ∧
    (advance_turn b).wildcard_type = b.wildcard_type := by
  simp [advance_turn]

theorem check_battle_end_frame (b : Battle) :
    (check_battle_end b).player1_hp = b.player1_hp ∧
    (check_battle_end b).player2_hp = b.player2_hp ∧
    (check_battle_end b).player1_special_cooldown = b.player1_special_cooldown ∧
    (check_battle_end b).player2_special_cooldown = b.player2_special_cooldown ∧
    (check_battle_end b).wildcard_type = b.wildcard_type := by
  unfold check_battle_end
  split <;> simp [log_fields]

theorem check_battle_end_term (b : Battle)
    (h : b.player1_hp = 0 ∨ b.player2_hp = 0) :
    (check_battle_end b).is_finished = true ∧
    (check_battle_end b).winner = (if 0 < b.player1_hp then some 1 else some 2) := by
  unfold check_battle_end
  split
  · simp [log_fields]
  · rename_i hc
    simp only [Bool.or_eq_true, beq_iff_eq] at hc
    push_neg at hc
    rcases h with h | h
    · exact absurd h hc.1
    · exact absurd h hc.2

theorem check_achievements_shape (c : Character) :
    ∃ l, check_achievements c = { c with achievements := l } := by
  unfold check_achievements
  dsimp only
  split <;> (try dsimp only) <;> split <;> (try dsimp only) <;> split <;> (try dsimp only) <;>
    split <;> exact ⟨_, rfl⟩

theorem check_achievements_frame (c : Character) :
    (check_achievements c).xp = c.xp ∧
    (check_achievements c).level = c.level ∧
    (check_achievements c).mmr = c.mmr ∧
    (check_achievements c).current_hp = c.current_hp ∧
    (check_achievements c).max_hp = c.max_hp := by
  obtain ⟨l, hl⟩ := check_achievements_shape c
  rw [hl]
  exact ⟨rfl, rfl, rfl, rfl, rfl⟩

theorem xp_bonus_min (d : Nat) : (if d > 5 then 50 else d * 10) = min 50 (10 * d) := by
  by_cases h : d > 5
  · simp [h]
    omega
  · simp [h]
    omega

theorem update_winner_stats_fields (c : Character) (xp level_diff : Nat)
    (hnl : c.xp + xp < get_required_xp c.level) :
    (update_winner_stats c xp level_diff).xp = c.xp + xp ∧
    (update_winner_stats c xp level_diff).mmr = c.mmr + (25 + level_diff * 5) ∧
    (update_winner_stats c xp level_diff).current_hp =
      (update_winner_stats c xp level_diff).max_hp := by
  unfold update_winner_stats update_rank_tier
  simp only [check_achievements_frame]
  rw [if_neg]
  · simp [check_achievements_frame]
  · rintro ⟨h1, _⟩
    try simp only [check_achievements_frame] at h1
    omega

theorem update_loser_stats_fields (c : Character) (level_diff : Nat) :
    (update_loser_stats c level_diff).mmr = c.mmr - (15 + level_diff * 3) ∧
    (update_loser_stats c level_diff).current_hp = (update_loser_stats c level_diff).max_hp := by
  unfold update_loser_stats update_rank_tier
  simp

theorem execute_battle_turn_type (b : Battle) (attacker defender : Character)
    (is_player1 use_special : Bool) (now : Int) :
    (execute_battle_turn b attacker defender is_player1 use_special now).wildcard_type =
      b.wildcard_type := by
  cases is_player1 <;> cases use_special <;>
    simp only [execute_battle_turn, if_true, if_false, Bool.false_eq_true, ite_true, ite_false] <;>
    simp [advance_turn_frame, check_battle_end_frame, log_fields,
          calculate_damage_frame, apply_stance_modifiers_frame, apply_wildcard_effects_frame] <;>
    split <;>
    simp [advance_turn_frame, check_battle_end_frame, log_fields,
          calculate_damage_frame, apply_stance_modifiers_frame, apply_wildcard_effects_frame] <;>
    split <;>
    simp [advance_turn_frame, check_battle_end_frame, log_fields,
          calculate_damage_frame, apply_stance_modifiers_frame, apply_wildcard_effects_frame]

theorem resolve_frame (b : Battle) (now : Int) :
    (resolve_wildcard_with_decisions b now).wildcard_type = b.wildcard_type ∧
    (resolve_wildcard_with_decisions b now).wildcard_active = false ∧
    (resolve_wildcard_with_decisions b now).wildcard_player1_decision = none ∧
    (resolve_wildcard_with_decisions b now).wildcard_player2_decision = none := by
  unfold resolve_wildcard_with_decisions
  dsimp only
  split <;> (repeat' split) <;> simp [log_fields]

theorem decide_wildcard_type (b : Battle) (c : Character) (accept : Bool) (now : Int) :
    ∀ r, decide_wildcard b c accept now = .ok r → r.wildcard_type = b.wildcard_type := by
  intro r h
  unfold decide_wildcard at h
  split at h
  · cases h
  · split at h
    · cases h
    · dsimp only at h
      by_cases hp : b.player1 = c.key <;>
        simp only [hp, if_true, if_false, ite_true, ite_false] at h <;>
        split at h <;> (try cases h) <;> simp [resolve_frame]

theorem commit_stance_type (b : Battle) (c : Character) (sh : Nat) (now : Int) :
    ∀ r, commit_stance b c sh now = .ok r → r.wildcard_type = b.wildcard_type := by
  intro r h
  unfold commit_stance at h
  split at h
  · cases h
  · split at h
    · cases h
    · dsimp only at h
      split at h
      · cases h
      · by_cases hp : b.player1 = c.key <;>
          simp only [hp, if_true, if_false, ite_true, ite_false] at h <;>
          split at h <;> (try cases h) <;> rfl

theorem check_timeout_type (b : Battle) (now : Int) :
    ∀ r, check_timeout b now = .ok r → r.wildcard_type = b.wildcard_type := by
  intro r h
  unfold check_timeout at h
  split at h
  · cases h
  · dsimp only at h
    by_cases ht : now - b.last_action_time > TURN_TIMEOUT_SECONDS <;>
      simp only [ht, if_true, if_false, ite_true, ite_false] at h <;>
      (try cases h) <;> simp [log_fields]

theorem resolve_wildcard_timeout_type (b : Battle) (now : Int) :
    ∀ r, resolve_wildcard_timeout b now = .ok r → r.wildcard_type = b.wildcard_type := by
  intro r h
  unfold resolve_wildcard_timeout at h
  split at h
  · cases h
  · split at h
    · cases h
    · cases h
      rw [(resolve_frame _ now).1]
      split <;> split <;> simp [log_fields]

theorem reveal_type_not_none (hashFn : List Nat → Nat) (b : Battle)
    (attacker defender : Character) (stance : BattleStance) (salt : Nat)
    (use_special : Bool) (now : Int) :
    ∀ r, reveal_and_execute_turn hashFn b attacker defender stance salt use_special now = .ok r →
      b.wildcard_type ≠ none → r.wildcard_type ≠ none := by
  intro r h hne
  unfold reveal_and_execute_turn at h
  by_cases hfin : b.is_finished = true
  · simp [hfin] at h
  · by_cases hexp : now - b.created_at < BATTLE_EXPIRY_SECONDS
    case neg => simp [hfin, hexp] at h
    case pos =>
      by_cases hp : b.player1 = attacker.key
      · by_cases hct : b.current_turn = 1
        case neg => simp [hfin, hexp, hp, hct] at h
        case pos =>
          by_cases hhash : b.player1_stance_hash = hashFn (stance.to_bytes ++ u64LeBytes salt)
          case neg => simp [hfin, hexp, hp, hct, hhash] at h
          case pos =>
            by_cases hcd : (use_special = true ∧ b.player1_special_cooldown ≠ 0)
            · simp [hfin, hexp, hp, hct, hhash, hcd] at h
            · by_cases hdot : b.player1_dot_turns > 0 <;>
                by_cases htr : attacker.character_class = CharacterClass.Trickster <;>
                by_cases hroll : simple_random now b.turn_number 1 % 100 < wildcard_chance attacker <;>
                by_cases hact : b.wildcard_active = true <;>
                by_cases hreq : requires_decision (pick_wildcard now b.turn_number) = true <;>
                (try simp only [wildcard_chance, htr, if_true, if_false, ite_true, ite_false,
                  eq_self_iff_true, not_true, not_false_iff] at hroll) <;>
                simp [hfin, hexp, hp, hct, hhash, hcd, hdot, htr, hroll, hact, hreq,
                  wildcard_chance, log_fields, execute_battle_turn_type] at h <;>
                (try subst h) <;>
                simp [execute_battle_turn_type, log_fields, hne]
      · by_cases hct : b.current_turn = 2
        case neg => simp [hfin, hexp, hp, hct] at h
        case pos =>
          by_cases hhash : b.player2_stance_hash = hashFn (stance.to_bytes ++ u64LeBytes salt)
          case neg => simp [hfin, hexp, hp, hct, hhash] at h
          case pos =>
            by_cases hcd : (use_special = true ∧ b.player2_special_cooldown ≠ 0)
            · simp [hfin, hexp, hp, hct, hhash, hcd] at h
            · by_cases hdot : b.player2_dot_turns > 0 <;>
                by_cases htr : attacker.character_class = CharacterClass.Trickster <;>
                by_cases hroll : simple_random now b.turn_number 1 % 100 < wildcard_chance attacker <;>
                by_cases hact : b.wildcard_active = true <;>
                by_cases hreq : requires_decision (pick_wildcard now b.turn_number) = true <;>
                (try simp only [wildcard_chance, htr, if_true, if_false, ite_true, ite_false,
                  eq_self_iff_true, not_true, not_false_iff] at hroll) <;>
                simp [hfin, hexp, hp, hct, hhash, hcd, hdot, htr, hroll, hact, hreq,
                  wildcard_chance, log_fields, execute_battle_turn_type] at h <;>
                (try subst h) <;>
                simp [execute_battle_turn_type, log_fields, hne]

/-! Claim theorems. -/

/-- Claim C1: a `reveal_and_execute_turn` call by the side holding the turn on
a live, unexpired battle succeeds only if the recomputed
`hash(stance bytes ++ salt bytes)` is exactly the stored commitment hash of
that side; with any stance/salt whose hash differs it fails with
`InvalidStanceReveal` (and, the embedding being transactional, an `.error`
result leaves the battle record unchanged: no turn advance, no health change,
commitment hash and committed flag still stored). -/
theorem reveal_commitment_check (hashFn : List Nat → Nat) (b : Battle)
    (attacker defender : Character) (stance : BattleStance) (salt : Nat)
    (use_special : Bool) (now : Int)
    (hfin : b.is_finished = false)
    (hexp : now - b.created_at < BATTLE_EXPIRY_SECONDS)
    (hturn : b.current_turn = if b.player1 = attacker.key then 1 else 2) :
    ((if b.player1 = attacker.key then b.player1_stance_hash else b.player2_stance_hash) ≠
        hashFn (stance.to_bytes ++ u64LeBytes salt) →
      reveal_and_execute_turn hashFn b attacker defender stance salt use_special now =
        .error .InvalidStanceReveal) ∧
    (∀ r, reveal_and_execute_turn hashFn b attacker defender stance salt use_special now = .ok r →
      (if b.player1 = attacker.key then b.player1_stance_hash else b.player2_stance_hash) =
        hashFn (stance.to_bytes ++ u64LeBytes salt)) := by
  by_cases hp : b.player1 = attacker.key
  · rw [if_pos hp] at hturn
    simp only [hp, if_true, ite_true]
    constructor
    · intro hne
      unfold reveal_and_execute_turn
      simp [hfin, hexp, hp, hturn, hne]
    · intro r hok
      by_cases heq : b.player1_stance_hash = hashFn (stance.to_bytes ++ u64LeBytes salt)
      · exact heq
      · exfalso
        unfold reveal_and_execute_turn at hok
        simp [hfin, hexp, hp, hturn, heq] at hok
  · rw [if_neg hp] at hturn
    simp only [hp, if_false, ite_false]
    constructor
    · intro hne
      unfold reveal_and_execute_turn
      simp [hfin, hexp, hp, hturn, hne]
    · intro r hok
      by_cases heq : b.player2_stance_hash = hashFn (stance.to_bytes ++ u64LeBytes salt)
      · exact heq
      · exfalso
        unfold reveal_and_execute_turn at hok
        simp [hfin, hexp, hp, hturn, heq] at hok

/-- Witness for C1: on a fresh battle whose stored commitment is the cleared
hash 0, revealing under a hash function returning 1 fails with
`InvalidStanceReveal`. -/
theorem reveal_commitment_check_w :
    reveal_and_execute_turn (fun _ => 1) mkBattle (mkChar 1) (mkChar 2) .Balanced 0 false 0 =
      .error .InvalidStanceReveal :=
  (reveal_commitment_check (fun _ => 1) mkBattle (mkChar 1) (mkChar 2) .Balanced 0 false 0
      rfl (by decide) (by decide)).1 (by decide)

/-- Counterexample to C2 as stated: a tie is possible.  Player 1 attacks at
5 HP with 50% reflection against player 2 at 10 HP; the 10-damage hit zeroes
player 2 and the 5 reflected damage zeroes player 1 in the same turn, and the
code then declares player 2 — whose health is zero — the winner. -/
theorem tie_both_zero_after_turn :
    (execute_battle_turn bC2 (mkChar 1) (mkChar 2) true false 0).player1_hp = 0 ∧
    (execute_battle_turn bC2 (mkChar 1) (mkChar 2) true false 0).player2_hp = 0 ∧
    (execute_battle_turn bC2 (mkChar 1) (mkChar 2) true false 0).winner = some 2 ∧
    (execute_battle_turn bC2 (mkChar 1) (mkChar 2) true false 0).is_finished = true := by
  decide

/-- Claim C2 (amended): after an executed turn, if either side's battle-local
health is zero the battle is marked terminal, and the winner is side 1 exactly
when side 1's health is positive, otherwise side 2 — when exactly one side is
at zero this is the non-zero side, but both sides can reach zero in one turn
(Berserker self-damage or reflection), in which case side 2 is declared winner
even at zero health. -/
theorem turn_termination_rule (b : Battle) (attacker defender : Character)
    (is_player1 use_special : Bool) (now : Int)
    (h0 : (execute_battle_turn b attacker defender is_player1 use_special now).player1_hp = 0 ∨
          (execute_battle_turn b attacker defender is_player1 use_special now).player2_hp = 0) :
    (execute_battle_turn b attacker defender is_player1 use_special now).is_finished = true ∧
    (execute_battle_turn b attacker defender is_player1 use_special now).winner =
      (if 0 < (execute_battle_turn b attacker defender is_player1 use_special now).player1_hp
       then some 1 else some 2) := by
  have key : ∀ x : Battle,
      ((advance_turn (check_battle_end x)).player1_hp = 0 ∨
       (advance_turn (check_battle_end x)).player2_hp = 0) →
      (advance_turn (check_battle_end x)).is_finished = true ∧
      (advance_turn (check_battle_end x)).winner =
        (if 0 < (advance_turn (check_battle_end x)).player1_hp then some 1 else some 2) := by
    intro x h
    have ha := advance_turn_frame (check_battle_end x)
    have hf := check_battle_end_frame x
    rw [ha.1, ha.2.1, hf.1, hf.2.1] at h
    have ht := check_battle_end_term x h
    rw [ha.2.2.1, ha.2.2.2.1, ha.1, hf.1]
    exact ⟨ht.1, ht.2⟩
  revert h0
  show _ → _
  simp only [execute_battle_turn]
  exact key _

/-- Witness for C2 (amended): the tie battle from the counterexample is marked
terminal with player 2 as winner. -/
theorem turn_termination_rule_w :
    (execute_battle_turn bC2 (mkChar 1) (mkChar 2) true false 0).is_finished = true ∧
    (execute_battle_turn bC2 (mkChar 1) (mkChar 2) true false 0).winner =
      (if 0 < (execute_battle_turn bC2 (mkChar 1) (mkChar 2) true false 0).player1_hp
       then some 1 else some 2) :=
  turn_termination_rule bC2 (mkChar 1) (mkChar 2) true false 0 (by decide)

/-- Counterexample to C3 as stated: a reveal that suspends on a
decision-required wildcard (DoubleOrNothing) does alter the acting side's
battle-local health — the pending DOT tick is applied before the suspension
(player 1 drops from 10 to 7 HP while the turn counter stays at 0). -/
theorem wildcard_decision_call_changes_health :
    (okBattle (reveal_and_execute_turn (fun _ => 0) bC3 (mkChar 1) (mkChar 2)
        .Balanced 0 false 0)).map
      (fun r => (r.wildcard_active, r.wildcard_type, r.turn_number, r.player1_hp, r.player2_hp)) =
      some (true, some .DoubleOrNothing, 0, 7, 120) ∧
    bC3.player1_hp = 10 := by
  decide

/-- Claim C3 (amended): a reveal that triggers a decision-required wildcard
suspends turn execution — the turn counter does not advance and no
damage-pipeline damage is applied: the non-acting side's health is unchanged,
and the acting side's health changes only by its pending DOT tick applied
before the suspension. -/
theorem wildcard_decision_suspends_reveal (hashFn : List Nat → Nat) (b : Battle)
    (attacker defender : Character) (stance : BattleStance) (salt : Nat)
    (use_special : Bool) (now : Int)
    (hfin : b.is_finished = false)
    (hexp : now - b.created_at < BATTLE_EXPIRY_SECONDS)
    (hturn : b.current_turn = if b.player1 = attacker.key then 1 else 2)
    (hhash : (if b.player1 = attacker.key then b.player1_stance_hash else b.player2_stance_hash) =
        hashFn (stance.to_bytes ++ u64LeBytes salt))
    (hcd : use_special = true →
        (if b.player1 = attacker.key then b.player1_special_cooldown
         else b.player2_special_cooldown) = 0)
    (hroll : simple_random now b.turn_number 1 % 100 < wildcard_chance attacker)
    (hact : b.wildcard_active = false)
    (hdec : requires_decision (pick_wildcard now b.turn_number) = true) :
    ∃ r, reveal_and_execute_turn hashFn b attacker defender stance salt use_special now = .ok r ∧
      r.wildcard_active = true ∧
      r.turn_number = b.turn_number ∧
      (if b.player1 = attacker.key
       then r.player2_hp = b.player2_hp ∧
            r.player1_hp = b.player1_hp -
              (if 0 < b.player1_dot_turns then b.player1_dot_damage else 0)
       else r.player1_hp = b.player1_hp ∧
            r.player2_hp = b.player2_hp -
              (if 0 < b.player2_dot_turns then b.player2_dot_damage else 0)) := by
  by_cases hp : b.player1 = attacker.key
  · rw [if_pos hp] at hturn hhash hcd
    simp only [if_pos hp]
    unfold reveal_and_execute_turn
    rw [hfin]
    cases use_special
    · by_cases hdot : 0 < b.player1_dot_turns <;>
        by_cases htr : attacker.character_class = CharacterClass.Trickster <;>
        (simp only [wildcard_chance, htr, if_true, if_false] at hroll
         simp [hexp, hp, hturn, hhash, hact, hroll, hdec, hdot, htr, log_fields, wildcard_chance])
    · have hcd1 := hcd rfl
      by_cases hdot : 0 < b.player1_dot_turns <;>
        by_cases htr : attacker.character_class = CharacterClass.Trickster <;>
        (simp only [wildcard_chance, htr, if_true, if_false] at hroll
         simp [hexp, hp, hturn, hhash, hact, hroll, hdec, hdot, htr, hcd1, log_fields,
           wildcard_chance])
  · rw [if_neg hp] at hturn hhash hcd
    simp only [if_neg hp]
    unfold reveal_and_execute_turn
    rw [hfin]
    cases use_special
    · by_cases hdot : 0 < b.player2_dot_turns <;>
        by_cases htr : attacker.character_class = CharacterClass.Trickster <;>
        (simp only [wildcard_chance, htr, if_true, if_false] at hroll
         simp [hexp, hp, hturn, hhash, hact, hroll, hdec, hdot, htr, log_fields, wildcard_chance])
    · have hcd1 := hcd rfl
      by_cases hdot : 0 < b.player2_dot_turns <;>
        by_cases htr : attacker.character_class = CharacterClass.Trickster <;>
        (simp only [wildcard_chance, htr, if_true, if_false] at hroll
         simp [hexp, hp, hturn, hhash, hact, hroll, hdec, hdot, htr, hcd1, log_fields,
           wildcard_chance])

/-- Witness for C3 (amended): the DOT battle from the counterexample
suspends with 3 HP of DOT applied to the acting side. -/
theorem wildcard_decision_suspends_reveal_w :
    ∃ r, reveal_and_execute_turn (fun _ => 0) bC3 (mkChar 1) (mkChar 2) .Balanced 0 false 0 =
        .ok r ∧
      r.wildcard_active = true ∧
      r.turn_number = bC3.turn_number ∧
      (if bC3.player1 = (mkChar 1).key
       then r.player2_hp = bC3.player2_hp ∧
            r.player1_hp = bC3.player1_hp -
              (if 0 < bC3.player1_dot_turns then bC3.player1_dot_damage else 0)
       else r.player1_hp = bC3.player1_hp ∧
            r.player2_hp = bC3.player2_hp -
              (if 0 < bC3.player2_dot_turns then bC3.player2_dot_damage else 0)) :=
  wildcard_decision_suspends_reveal (fun _ => 0) bC3 (mkChar 1) (mkChar 2) .Balanced 0 false 0
    rfl (by decide) (by decide) (by decide) (by decide) (by decide) rfl (by decide)

/-- Claim C4: in every executed turn, the acting side's per-battle special
cooldown becomes exactly 2 when the special was used, and otherwise decreases
by exactly 1 saturating at 0 (Nat subtraction); the opponent's cooldown is
never changed by the turn. -/
theorem special_cooldown_rule (b : Battle) (attacker defender : Character)
    (is_player1 use_special : Bool) (now : Int) :
    (if is_player1
     then (execute_battle_turn b attacker defender is_player1 use_special now).player2_special_cooldown =
            b.player2_special_cooldown
     else (execute_battle_turn b attacker defender is_player1 use_special now).player1_special_cooldown =
            b.player1_special_cooldown) ∧
    (if is_player1
     then (execute_battle_turn b attacker defender is_player1 use_special now).player1_special_cooldown =
            (if use_special then 2 else b.player1_special_cooldown - 1)
     else (execute_battle_turn b attacker defender is_player1 use_special now).player2_special_cooldown =
            (if use_special then 2 else b.player2_special_cooldown - 1)) := by
  cases is_player1 <;> cases use_special <;>
    simp only [execute_battle_turn, if_true, if_false, Bool.false_eq_true, ite_true, ite_false] <;>
    simp [advance_turn_frame, check_battle_end_frame, log_fields,
          calculate_damage_frame, apply_stance_modifiers_frame, apply_wildcard_effects_frame] <;>
    split <;>
    simp [advance_turn_frame, check_battle_end_frame, log_fields,
          calculate_damage_frame, apply_stance_modifiers_frame, apply_wildcard_effects_frame] <;>
    split <;>
    simp [advance_turn_frame, check_battle_end_frame, log_fields,
          calculate_damage_frame, apply_stance_modifiers_frame, apply_wildcard_effects_frame]

/-- Claim C5 (code bug): the ReverseRoles wildcard does not swap health.
Since `p1_percent = hp1*100/max(hp1,1)` is 100 whenever `hp1 > 0`, the code
sets both sides to player 1's health: on (10, 20) it produces (10, 10), not
the swapped (20, 10) — while its own log message says "HP swapped!". -/
theorem reverse_roles_no_swap :
    (apply_wildcard_effects 0 bC5 true 0).2.player1_hp = 10 ∧
    (apply_wildcard_effects 0 bC5 true 0).2.player2_hp = 10 ∧
    bC5.player1_hp = 10 ∧ bC5.player2_hp = 20 := by
  decide

/-- Claim C6: `finalize_battle` on a terminal battle won by player 1 (when no
level-up is possible) awards `category base + min(50, 10 × level difference)`
XP, `25 + 5 × difference` MMR to the winner, removes `15 + 3 × difference`
MMR from the loser (saturating at 0), and heals both to their max health; in
particular a Ranked battle with level difference 0 yields exactly +100 XP,
+25 MMR, and −15 MMR. -/
theorem finalize_rewards (b : Battle) (p1 p2 : Character)
    (hfin : b.is_finished = true) (hw : b.winner = some 1)
    (hnl : p1.xp + 250 < get_required_xp p1.level) :
    ∃ w l, finalize_battle b p1 p2 = .ok (w, l) ∧
      w.xp = p1.xp +
        ((match b.match_type with
          | .Casual => 50 | .Ranked => 100 | .Tournament => 200 | .Staked => 150) +
          min 50 (10 * ((p1.level : Int) - (p2.level : Int)).natAbs)) ∧
      w.mmr = p1.mmr + (25 + ((p1.level : Int) - (p2.level : Int)).natAbs * 5) ∧
      l.mmr = p2.mmr - (15 + ((p1.level : Int) - (p2.level : Int)).natAbs * 3) ∧
      w.current_hp = w.max_hp ∧ l.current_hp = l.max_hp ∧
      (b.match_type = .Ranked → p1.level = p2.level →
        w.xp = p1.xp + 100 ∧ w.mmr = p1.mmr + 25 ∧ l.mmr = p2.mmr - 15) := by
  unfold finalize_battle
  rw [hfin, hw]
  simp only [Bool.true_eq_false, not_true, if_false, ite_false, ite_true, if_true]
  set d := ((p1.level : Int) - (p2.level : Int)).natAbs with hd
  set base := (match b.match_type with
          | MatchType.Casual => 50 | MatchType.Ranked => 100
          | MatchType.Tournament => 200 | MatchType.Staked => 150 : Nat) with hbase
  have hb200 : base ≤ 200 := by
    rw [hbase]
    cases b.match_type <;> simp
  have hbonus : (if d > 5 then 50 else d * 10) ≤ 50 := by
    by_cases h : d > 5
    · simp [h]
    · simp [h]
      omega
  have hwf := update_winner_stats_fields p1 (base + (if d > 5 then 50 else d * 10)) d
    (by omega)
  have hlf := update_loser_stats_fields p2 d
  refine ⟨_, _, rfl, ?_, ?_, ?_, ?_, ?_, ?_⟩
  · rw [hwf.1, xp_bonus_min]
  · exact hwf.2.1
  · exact hlf.1
  · exact hwf.2.2
  · exact hlf.2
  · intro hmt hlv
    have hd0 : d = 0 := by
      rw [hd, hlv]
      simp
    refine ⟨?_, ?_, ?_⟩
    · rw [hwf.1, hd0, hbase, hmt]
      simp
    · rw [hwf.2.1, hd0]
    · rw [hlf.1, hd0]

/-- Witness for C6: two level-3 characters in a finished Ranked battle won by
player 1. -/
theorem finalize_rewards_w :
    ∃ w l, finalize_battle bC6 { mkChar 1 with level := 3 } { mkChar 2 with level := 3 } =
        .ok (w, l) ∧
      w.xp = { mkChar 1 with level := 3 }.xp +
        ((match bC6.match_type with
          | .Casual => 50 | .Ranked => 100 | .Tournament => 200 | .Staked => 150) +
          min 50 (10 * (({ mkChar 1 with level := 3 }.level : Int) -
            ({ mkChar 2 with level := 3 }.level : Int)).natAbs)) ∧
      w.mmr = { mkChar 1 with level := 3 }.mmr +
        (25 + (({ mkChar 1 with level := 3 }.level : Int) -
          ({ mkChar 2 with level := 3 }.level : Int)).natAbs * 5) ∧
      l.mmr = { mkChar 2 with level := 3 }.mmr -
        (15 + (({ mkChar 1 with level := 3 }.level : Int) -
          ({ mkChar 2 with level := 3 }.level : Int)).natAbs * 3) ∧
      w.current_hp = w.max_hp ∧ l.current_hp = l.max_hp ∧
      (bC6.match_type = .Ranked →
        { mkChar 1 with level := 3 }.level = { mkChar 2 with level := 3 }.level →
        w.xp = { mkChar 1 with level := 3 }.xp + 100 ∧
        w.mmr = { mkChar 1 with level := 3 }.mmr + 25 ∧
        l.mmr = { mkChar 2 with level := 3 }.mmr - 15) :=
  finalize_rewards bC6 { mkChar 1 with level := 3 } { mkChar 2 with level := 3 }
    rfl rfl (by decide)

/-- Claim C7: on an unfinished battle older than 3600 seconds, every
`commit_stance` and every `reveal_and_execute_turn` call fails with
`BattleExpired`, while `check_timeout` still succeeds when the inactivity
exceeds 30 seconds, marking the battle finished and abandoned with the
non-turn-holding side as winner. -/
theorem expired_battle_rules (b : Battle) (now : Int)
    (hexp : BATTLE_EXPIRY_SECONDS < now - b.created_at)
    (hfin : b.is_finished = false)
    (hin : TURN_TIMEOUT_SECONDS < now - b.last_action_time) :
    (∀ c h, commit_stance b c h now = .error .BattleExpired) ∧
    (∀ hashFn attacker defender stance salt us,
        reveal_and_execute_turn hashFn b attacker defender stance salt us now =
          .error .BattleExpired) ∧
    (∃ r, check_timeout b now = .ok r ∧ r.is_finished = true ∧ r.abandoned = true ∧
        r.winner = some (if b.current_turn = 1 then 2 else 1)) := by
  have hnot : ¬ (now - b.created_at < BATTLE_EXPIRY_SECONDS) := by omega
  refine ⟨?_, ?_, ?_⟩
  · intro c h
    unfold commit_stance
    simp [hfin, hnot]
  · intro hashFn attacker defender stance salt us
    unfold reveal_and_execute_turn
    simp [hfin, hnot]
  · unfold check_timeout
    simp [hfin, hin, log_fields]

/-- Witness for C7: a battle created 3601 seconds ago with 31 seconds of
inactivity. -/
theorem expired_battle_rules_w :
    commit_stance bC7 (mkChar 1) 5 0 = .error .BattleExpired ∧
    reveal_and_execute_turn (fun _ => 0) bC7 (mkChar 1) (mkChar 2) .Balanced 0 false 0 =
      .error .BattleExpired ∧
    (∃ r, check_timeout bC7 0 = .ok r ∧ r.is_finished = true ∧ r.abandoned = true ∧
        r.winner = some (if bC7.current_turn = 1 then 2 else 1)) := by
  have h := expired_battle_rules bC7 0 (by decide) rfl (by decide)
  exact ⟨h.1 (mkChar 1) 5, h.2.1 (fun _ => 0) (mkChar 1) (mkChar 2) .Balanced 0 false, h.2.2⟩

/-- Counterexample to C8 as stated: a second `decide_wildcard` call by the
same side before resolution is not rejected — it succeeds and replaces the
recorded decision (accept followed by decline leaves `some false`). -/
theorem second_decision_replaces :
    ((okBattle (decide_wildcard bC8 (mkChar 1) true 0)).bind
      (fun r => okBattle (decide_wildcard r (mkChar 1) false 0))).map
        (fun r => (r.wildcard_player1_decision, r.wildcard_active)) =
      some (some false, true) := by
  decide

/-- Claim C8 (amended): `decide_wildcard` fails with `NoActiveWildcard` when
no wildcard is active and with `DecisionTimeout` past the deadline; otherwise
it records (and on a repeated call by the same side, overwrites) the caller's
accept/decline in the slot chosen by comparing the key with `battle.player1`
(shown here before the other side has decided, so no resolution fires). -/
theorem decide_wildcard_rules (b : Battle) (c : Character) (accept : Bool) (now : Int) :
    (b.wildcard_active = false → decide_wildcard b c accept now = .error .NoActiveWildcard) ∧
    (b.wildcard_active = true → b.wildcard_decision_deadline < now →
        decide_wildcard b c accept now = .error .DecisionTimeout) ∧
    (b.wildcard_active = true → now ≤ b.wildcard_decision_deadline →
      (b.player1 = c.key → b.wildcard_player2_decision = none →
        decide_wildcard b c accept now = .ok { b with wildcard_player1_decision := some accept }) ∧
      (b.player1 ≠ c.key → b.wildcard_player1_decision = none →
        decide_wildcard b c accept now =
          .ok { b with wildcard_player2_decision := some accept })) := by
  refine ⟨?_, ?_, ?_⟩
  · intro h
    unfold decide_wildcard
    simp [h]
  · intro h hd
    unfold decide_wildcard
    simp [h, not_le.mpr hd]
  · intro h hd
    constructor
    · intro hp hnone
      unfold decide_wildcard
      simp [h, hd, hp, hnone]
    · intro hp hnone
      unfold decide_wildcard
      simp [h, hd, hp, hnone]

/-- Witness for C8 (amended): player 1's decision is recorded on the active
DoubleOrNothing wildcard of `bC8`. -/
theorem decide_wildcard_rules_w :
    decide_wildcard bC8 (mkChar 1) true 0 =
      .ok { bC8 with wildcard_player1_decision := some true } :=
  ((decide_wildcard_rules bC8 (mkChar 1) true 0).2.2 rfl (by decide)).1 rfl rfl

/-- Claim C9: no operation resets `wildcard_type` to `None`: turn execution
preserves it exactly (clearing only `wildcard_active`), decision resolution
preserves it while clearing the active flag and both decisions, successful
`decide_wildcard` / `commit_stance` / `check_timeout` /
`resolve_wildcard_timeout` calls preserve it, a successful reveal never turns
a stored type into `None`, and whenever the stored type is `GamblersFallacy`
the damage pipeline's crit chance is the attacker's base plus 5 per recorded
miss of the acting side — gated only on the stored type, not on
`wildcard_active`. -/
theorem wildcard_type_persistence (b : Battle) (attacker defender c : Character)
    (accept use_special is_player1 : Bool) (now : Int) (hashFn : List Nat → Nat)
    (stance : BattleStance) (salt sh : Nat) :
    (execute_battle_turn b attacker defender is_player1 use_special now).wildcard_type =
      b.wildcard_type ∧
    ((resolve_wildcard_with_decisions b now).wildcard_type = b.wildcard_type ∧
     (resolve_wildcard_with_decisions b now).wildcard_active = false ∧
     (resolve_wildcard_with_decisions b now).wildcard_player1_decision = none ∧
     (resolve_wildcard_with_decisions b now).wildcard_player2_decision = none) ∧
    (∀ r, decide_wildcard b c accept now = .ok r → r.wildcard_type = b.wildcard_type) ∧
    (∀ r, commit_stance b c sh now = .ok r → r.wildcard_type = b.wildcard_type) ∧
    (∀ r, check_timeout b now = .ok r → r.wildcard_type = b.wildcard_type) ∧
    (∀ r, resolve_wildcard_timeout b now = .ok r → r.wildcard_type = b.wildcard_type) ∧
    (∀ r, reveal_and_execute_turn hashFn b attacker defender stance salt use_special now = .ok r →
        b.wildcard_type ≠ none → r.wildcard_type ≠ none) ∧
    (b.wildcard_type = some .GamblersFallacy →
      effective_crit_chance attacker b is_player1 =
        attacker.crit_chance +
          (if is_player1 then b.player1_miss_count else b.player2_miss_count) * 5) := by
  refine ⟨execute_battle_turn_type b attacker defender is_player1 use_special now,
    resolve_frame b now,
    decide_wildcard_type b c accept now,
    commit_stance_type b c sh now,
    check_timeout_type b now,
    resolve_wildcard_timeout_type b now,
    reveal_type_not_none hashFn b attacker defender stance salt use_special now,
    ?_⟩
  intro hgf
  simp [effective_crit_chance, hgf]

/-- Witness for C9: a GamblersFallacy battle with two recorded misses for
player 1 keeps its wildcard type across a full turn, and the effective crit
chance of the attacker is boosted by 2 × 5. -/
theorem wildcard_type_persistence_w :
    (execute_battle_turn bGF (mkChar 1) (mkChar 2) true false 0).wildcard_type =
      some WildcardEvent.GamblersFallacy ∧
    effective_crit_chance (mkChar 1) bGF true = (mkChar 1).crit_chance + 2 * 5 := by
  have h := wildcard_type_persistence bGF (mkChar 1) (mkChar 2) (mkChar 1)
    true false true 0 (fun _ => 0) .Balanced 0 0
  refine ⟨h.1.trans (by decide), ?_⟩
  have h9 := h.2.2.2.2.2.2.2 (by decide)
  rw [h9]
  decide

/-- Claim C10: `decide_wildcard` never checks that the caller is a battle
participant — any character whose key differs from `battle.player1`, including
one belonging to neither side, has its accept/decline recorded as player 2's
decision. -/
theorem decide_no_participant_check (b : Battle) (c : Character) (accept : Bool) (now : Int)
    (hact : b.wildcard_active = true) (hdl : now ≤ b.wildcard_decision_deadline)
    (hne : b.player1 ≠ c.key) (hp1 : b.wildcard_player1_decision = none) :
    decide_wildcard b c accept now = .ok { b with wildcard_player2_decision := some accept } := by
  unfold decide_wildcard
  simp [hact, hdl, hne, hp1]

/-- Witness for C10: character key 999 belongs to neither side of `bC8`
(players 1 and 2), yet its decision is recorded as player 2's. -/
theorem decide_no_participant_check_w :
    decide_wildcard bC8 (mkChar 999) true 0 =
      .ok { bC8 with wildcard_player2_decision := some true } :=
  decide_no_participant_check bC8 (mkChar 999) true 0 rfl (by decide) (by decide) rfl

end Fluidity
